import Mathlib

/-!
Shallow embedding of the raw-window-handle crate (src/lib.rs) and its
platform payload modules.

Pointers and address-sized integers are modelled as Nat, with 0 standing
for the null / empty sentinel.  The crate root (src/lib.rs) declares the
handle union, the capability trait and the trusted wrapper; the per-platform
payload modules (android, appkit, redox, uikit, unix, web, windows) are not
present in the sources, so their structs are modelled from the spec.
-/

/-- Modelled from the spec: the UIKit payload struct (module uikit is absent
from the sources).  View/window/controller handles are pointer-sized slots
whose empty sentinel is null, modelled as Nat with sentinel 0. -/
structure UIKitHandle where
  ui_window : Nat
  ui_view : Nat
  ui_view_controller : Nat
deriving DecidableEq

/-- Modelled from the spec: the AppKit payload struct (module appkit is absent
from the sources). -/
structure AppKitHandle where
  ns_window : Nat
  ns_view : Nat
deriving DecidableEq

/-- Modelled from the spec: the Orbital/Redox payload struct (module redox is
absent from the sources). -/
structure OrbitalHandle where
  window : Nat
deriving DecidableEq

/-- Modelled from the spec: the Xlib payload struct (module unix is absent from
the sources).  Per the spec it has a window field (numeric ID) and a
display-connection field (pointer), each with empty sentinel 0. -/
structure XlibHandle where
  window : Nat
  display : Nat
deriving DecidableEq

/-- Modelled from the spec: the Xcb payload struct (module unix is absent from
the sources). -/
structure XcbHandle where
  window : Nat
  connection : Nat
deriving DecidableEq

/-- Modelled from the spec: the Wayland payload struct (module unix is absent
from the sources). -/
structure WaylandHandle where
  surface : Nat
  display : Nat
deriving DecidableEq

/-- Modelled from the spec: the Win32 payload struct (module windows is absent
from the sources).  Window handle and instance handle, sentinel 0. -/
structure Win32Handle where
  hwnd : Nat
  hinstance : Nat
deriving DecidableEq

/-- Modelled from the spec: the WinRT payload struct (module windows is absent
from the sources). -/
structure WinRTHandle where
  core_window : Nat
deriving DecidableEq

/-- Modelled from the spec: the Web payload struct (module web is absent from
the sources).  A single unsigned numeric ID with sentinel 0. -/
structure WebHandle where
  id : Nat
deriving DecidableEq

/-- Modelled from the spec: the Android NDK payload struct (module android is
absent from the sources). -/
structure AndroidNDKHandle where
  a_native_window : Nat
deriving DecidableEq

/-- Modelled from the spec: each payload type exposes an empty constructor
yielding the all-sentinel instance (src/lib.rs lines 12-15 document this
contract; the struct bodies themselves are in the absent modules). -/
def UIKitHandle.empty : UIKitHandle := ⟨0, 0, 0⟩

/-- Modelled from the spec: all-sentinel AppKit payload. -/
def AppKitHandle.empty : AppKitHandle := ⟨0, 0⟩

/-- Modelled from the spec: all-sentinel Orbital payload. -/
def OrbitalHandle.empty : OrbitalHandle := ⟨0⟩

/-- Modelled from the spec: all-sentinel Xlib payload. -/
def XlibHandle.empty : XlibHandle := ⟨0, 0⟩

/-- Modelled from the spec: all-sentinel Xcb payload. -/
def XcbHandle.empty : XcbHandle := ⟨0, 0⟩

/-- Modelled from the spec: all-sentinel Wayland payload. -/
def WaylandHandle.empty : WaylandHandle := ⟨0, 0⟩

/-- Modelled from the spec: all-sentinel Win32 payload. -/
def Win32Handle.empty : Win32Handle := ⟨0, 0⟩

/-- Modelled from the spec: all-sentinel WinRT payload. -/
def WinRTHandle.empty : WinRTHandle := ⟨0⟩

/-- Modelled from the spec: all-sentinel Web payload. -/
def WebHandle.empty : WebHandle := ⟨0⟩

/-- Modelled from the spec: all-sentinel Android NDK payload. -/
def AndroidNDKHandle.empty : AndroidNDKHandle := ⟨0⟩

/-- The handle union (src/lib.rs lines 64-128): one variant per platform
payload. -/
inductive RawWindowHandle where
  | UIKit : UIKitHandle → RawWindowHandle
  | AppKit : AppKitHandle → RawWindowHandle
  | Orbital : OrbitalHandle → RawWindowHandle
  | Xlib : XlibHandle → RawWindowHandle
  | Xcb : XcbHandle → RawWindowHandle
  | Wayland : WaylandHandle → RawWindowHandle
  | Win32 : Win32Handle → RawWindowHandle
  | WinRT : WinRTHandle → RawWindowHandle
  | Web : WebHandle → RawWindowHandle
  | AndroidNDK : AndroidNDKHandle → RawWindowHandle
deriving DecidableEq

/-- The capability contract (src/lib.rs lines 47-49): a single total operation
producing a RawWindowHandle.  The trait has no other members. -/
class HasRawWindowHandle (H : Type) where
  raw_window_handle : H → RawWindowHandle

/-- The trusted wrapper (src/lib.rs lines 139-141): holds exactly one
RawWindowHandle.  The source declares no derive attributes on this struct. -/
structure TrustedWindowHandle where
  raw : RawWindowHandle

/-- Unchecked constructor (src/lib.rs lines 148-150): stores the given value
with no runtime check. -/
def TrustedWindowHandle.new (raw : RawWindowHandle) : TrustedWindowHandle :=
  ⟨raw⟩

/-- Read-back (src/lib.rs lines 162-165): the wrapper returns its stored value
unchanged. -/
def TrustedWindowHandle.raw_window_handle (w : TrustedWindowHandle) : RawWindowHandle :=
  w.raw

instance : HasRawWindowHandle TrustedWindowHandle :=
  ⟨TrustedWindowHandle.raw_window_handle⟩

/-- Extraction constructor (src/lib.rs lines 153-160): invokes the source
value's capability operation and wraps the result. -/
def TrustedWindowHandle.from_has_raw_window_handle {H : Type} [HasRawWindowHandle H]
    (fr : H) : TrustedWindowHandle :=
  ⟨HasRawWindowHandle.raw_window_handle fr⟩

/-- Instrumented embedding of the extraction constructor body
(src/lib.rs line 158): the producer is a stateful operation
f : σ → RawWindowHandle × σ, and the body applies it exactly once,
wrapping the produced handle and threading the state of that single call. -/
def TrustedWindowHandle.from_has_raw_window_handle_st {σ : Type}
    (f : σ → RawWindowHandle × σ) (s : σ) : TrustedWindowHandle × σ :=
  let r := f s
  (⟨r.1⟩, r.2)

/-- A stub capability implementer returning a fixed handle value, used to
exercise the extraction constructor. -/
structure FixedHandleSource where
  value : RawWindowHandle

instance : HasRawWindowHandle FixedHandleSource :=
  ⟨fun h => h.value⟩

/-- Consumer-side projection for the UIKit variant: the match arm recovering
the payload, none on every other tag. -/
def RawWindowHandle.asUIKit : RawWindowHandle → Option UIKitHandle
  | .UIKit p => some p
  | _ => none

/-- Consumer-side projection for the AppKit variant. -/
def RawWindowHandle.asAppKit : RawWindowHandle → Option AppKitHandle
  | .AppKit p => some p
  | _ => none

/-- Consumer-side projection for the Orbital variant. -/
def RawWindowHandle.asOrbital : RawWindowHandle → Option OrbitalHandle
  | .Orbital p => some p
  | _ => none

/-- Consumer-side projection for the Xlib variant. -/
def RawWindowHandle.asXlib : RawWindowHandle → Option XlibHandle
  | .Xlib p => some p
  | _ => none

/-- Consumer-side projection for the Xcb variant. -/
def RawWindowHandle.asXcb : RawWindowHandle → Option XcbHandle
  | .Xcb p => some p
  | _ => none

/-- Consumer-side projection for the Wayland variant. -/
def RawWindowHandle.asWayland : RawWindowHandle → Option WaylandHandle
  | .Wayland p => some p
  | _ => none

/-- Consumer-side projection for the Win32 variant. -/
def RawWindowHandle.asWin32 : RawWindowHandle → Option Win32Handle
  | .Win32 p => some p
  | _ => none

/-- Consumer-side projection for the WinRT variant. -/
def RawWindowHandle.asWinRT : RawWindowHandle → Option WinRTHandle
  | .WinRT p => some p
  | _ => none

/-- Consumer-side projection for the Web variant. -/
def RawWindowHandle.asWeb : RawWindowHandle → Option WebHandle
  | .Web p => some p
  | _ => none

/-- Consumer-side projection for the Android NDK variant. -/
def RawWindowHandle.asAndroidNDK : RawWindowHandle → Option AndroidNDKHandle
  | .AndroidNDK p => some p
  | _ => none

/-- Discriminant of a handle union value (source declaration order,
src/lib.rs lines 66-128). -/
def RawWindowHandle.variantIndex : RawWindowHandle → Nat
  | .UIKit _ => 0
  | .AppKit _ => 1
  | .Orbital _ => 2
  | .Xlib _ => 3
  | .Xcb _ => 4
  | .Wayland _ => 5
  | .Win32 _ => 6
  | .WinRT _ => 7
  | .Web _ => 8
  | .AndroidNDK _ => 9

/-- Repeated invocation of the wrapper's read-back: the list of results of n
successive calls of raw_window_handle on the same wrapper value. -/
def repeatedCalls (w : TrustedWindowHandle) (n : Nat) : List RawWindowHandle :=
  (List.range n).map (fun _ => TrustedWindowHandle.raw_window_handle w)

/-- The public types declared by the crate, used to record which derive
attributes the source places on each of them. -/
inductive CrateType where
  | rawWindowHandle
  | uikitHandle
  | appkitHandle
  | orbitalHandle
  | xlibHandle
  | xcbHandle
  | waylandHandle
  | win32Handle
  | winrtHandle
  | webHandle
  | androidNdkHandle
  | trustedWindowHandle
deriving DecidableEq

/-- Whether the source derives Clone for a given crate type.  RawWindowHandle
derives Clone at src/lib.rs line 65.  TrustedWindowHandle (src/lib.rs lines
139-141) carries no derive attribute at all.  The payload structs live in
modules absent from the sources; the spec states they are freely copyable
plain data, and the Copy derive on the union requires it, so they are
recorded as deriving Clone (modelled from the spec). -/
def derivesClone : CrateType → Bool
  | .trustedWindowHandle => false
  | _ => true

/-- Whether the source derives Copy for a given crate type; same sources as
for Clone. -/
def derivesCopy : CrateType → Bool
  | .trustedWindowHandle => false
  | _ => true

/-- Field-wise rebuild, the semantics of the derived Clone on the UIKit
payload. -/
def UIKitHandle.clone (p : UIKitHandle) : UIKitHandle :=
  ⟨p.ui_window, p.ui_view, p.ui_view_controller⟩

/-- Semantics of the derived Clone on the AppKit payload. -/
def AppKitHandle.clone (p : AppKitHandle) : AppKitHandle :=
  ⟨p.ns_window, p.ns_view⟩

/-- Semantics of the derived Clone on the Orbital payload. -/
def OrbitalHandle.clone (p : OrbitalHandle) : OrbitalHandle :=
  ⟨p.window⟩

/-- Semantics of the derived Clone on the Xlib payload. -/
def XlibHandle.clone (p : XlibHandle) : XlibHandle :=
  ⟨p.window, p.display⟩

/-- Semantics of the derived Clone on the Xcb payload. -/
def XcbHandle.clone (p : XcbHandle) : XcbHandle :=
  ⟨p.window, p.connection⟩

/-- Semantics of the derived Clone on the Wayland payload. -/
def WaylandHandle.clone (p : WaylandHandle) : WaylandHandle :=
  ⟨p.surface, p.display⟩

/-- Semantics of the derived Clone on the Win32 payload. -/
def Win32Handle.clone (p : Win32Handle) : Win32Handle :=
  ⟨p.hwnd, p.hinstance⟩

/-- Semantics of the derived Clone on the WinRT payload. -/
def WinRTHandle.clone (p : WinRTHandle) : WinRTHandle :=
  ⟨p.core_window⟩

/-- Semantics of the derived Clone on the Web payload. -/
def WebHandle.clone (p : WebHandle) : WebHandle :=
  ⟨p.id⟩

/-- Semantics of the derived Clone on the Android NDK payload. -/
def AndroidNDKHandle.clone (p : AndroidNDKHandle) : AndroidNDKHandle :=
  ⟨p.a_native_window⟩

/-- Semantics of the derived Clone on the handle union (src/lib.rs line 65):
rebuild the same variant around the cloned payload. -/
def RawWindowHandle.clone : RawWindowHandle → RawWindowHandle
  | .UIKit p => .UIKit p.clone
  | .AppKit p => .AppKit p.clone
  | .Orbital p => .Orbital p.clone
  | .Xlib p => .Xlib p.clone
  | .Xcb p => .Xcb p.clone
  | .Wayland p => .Wayland p.clone
  | .Win32 p => .Win32 p.clone
  | .WinRT p => .WinRT p.clone
  | .Web p => .Web p.clone
  | .AndroidNDK p => .AndroidNDK p.clone

/-- Modelled from the spec: the consumer-side view of the non_exhaustive union
(src/lib.rs line 64).  Because the union may grow, a consumer must be ready to
receive either a currently-known variant or a synthetic future/unknown tag;
the latter cannot be expressed inside the closed source enum itself. -/
inductive ConsumerView where
  | known : RawWindowHandle → ConsumerView
  | future : Nat → ConsumerView

/-- Result of consumer dispatch: one branch per currently-defined payload,
plus the mandatory fallback arm. -/
inductive Dispatch where
  | uikit : UIKitHandle → Dispatch
  | appkit : AppKitHandle → Dispatch
  | orbital : OrbitalHandle → Dispatch
  | xlib : XlibHandle → Dispatch
  | xcb : XcbHandle → Dispatch
  | wayland : WaylandHandle → Dispatch
  | win32 : Win32Handle → Dispatch
  | winrt : WinRTHandle → Dispatch
  | web : WebHandle → Dispatch
  | androidNdk : AndroidNDKHandle → Dispatch
  | fallbackArm : Dispatch
deriving DecidableEq

/-- Modelled from the spec: a consumer dispatch covering every
currently-defined tag, with a fallback arm for any unrecognized tag, as the
non_exhaustive attribute on the union requires. -/
def consumerDispatch : ConsumerView → Dispatch
  | .known (.UIKit p) => .uikit p
  | .known (.AppKit p) => .appkit p
  | .known (.Orbital p) => .orbital p
  | .known (.Xlib p) => .xlib p
  | .known (.Xcb p) => .xcb p
  | .known (.Wayland p) => .wayland p
  | .known (.Win32 p) => .win32 p
  | .known (.WinRT p) => .winrt p
  | .known (.Web p) => .web p
  | .known (.AndroidNDK p) => .androidNdk p
  | .future _ => .fallbackArm

/-- Field-wise boolean equality on the UIKit payload, the semantics of its
derived PartialEq. -/
def UIKitHandle.beqFields (p q : UIKitHandle) : Bool :=
  p.ui_window == q.ui_window && p.ui_view == q.ui_view
    && p.ui_view_controller == q.ui_view_controller

/-- Semantics of the derived PartialEq on the AppKit payload. -/
def AppKitHandle.beqFields (p q : AppKitHandle) : Bool :=
  p.ns_window == q.ns_window && p.ns_view == q.ns_view

/-- Semantics of the derived PartialEq on the Orbital payload. -/
def OrbitalHandle.beqFields (p q : OrbitalHandle) : Bool :=
  p.window == q.window

/-- Semantics of the derived PartialEq on the Xlib payload. -/
def XlibHandle.beqFields (p q : XlibHandle) : Bool :=
  p.window == q.window && p.display == q.display

/-- Semantics of the derived PartialEq on the Xcb payload. -/
def XcbHandle.beqFields (p q : XcbHandle) : Bool :=
  p.window == q.window && p.connection == q.connection

/-- Semantics of the derived PartialEq on the Wayland payload. -/
def WaylandHandle.beqFields (p q : WaylandHandle) : Bool :=
  p.surface == q.surface && p.display == q.display

/-- Semantics of the derived PartialEq on the Win32 payload. -/
def Win32Handle.beqFields (p q : Win32Handle) : Bool :=
  p.hwnd == q.hwnd && p.hinstance == q.hinstance

/-- Semantics of the derived PartialEq on the WinRT payload. -/
def WinRTHandle.beqFields (p q : WinRTHandle) : Bool :=
  p.core_window == q.core_window

/-- Semantics of the derived PartialEq on the Web payload. -/
def WebHandle.beqFields (p q : WebHandle) : Bool :=
  p.id == q.id

/-- Semantics of the derived PartialEq on the Android NDK payload. -/
def AndroidNDKHandle.beqFields (p q : AndroidNDKHandle) : Bool :=
  p.a_native_window == q.a_native_window

/-- Semantics of the derived PartialEq on the handle union (src/lib.rs line
65): same variant tag and field-wise equal payloads; different tags compare
unequal. -/
def RawWindowHandle.structEq : RawWindowHandle → RawWindowHandle → Bool
  | .UIKit p, .UIKit q => p.beqFields q
  | .AppKit p, .AppKit q => p.beqFields q
  | .Orbital p, .Orbital q => p.beqFields q
  | .Xlib p, .Xlib q => p.beqFields q
  | .Xcb p, .Xcb q => p.beqFields q
  | .Wayland p, .Wayland q => p.beqFields q
  | .Win32 p, .Win32 q => p.beqFields q
  | .WinRT p, .WinRT q => p.beqFields q
  | .Web p, .Web q => p.beqFields q
  | .AndroidNDK p, .AndroidNDK q => p.beqFields q
  | _, _ => false

/-- Semantics of the derived Hash on the handle union (src/lib.rs line 65):
the stream of words fed to the hasher, namely the discriminant followed by
the payload fields. -/
def RawWindowHandle.hashStream : RawWindowHandle → List Nat
  | .UIKit p => [0, p.ui_window, p.ui_view, p.ui_view_controller]
  | .AppKit p => [1, p.ns_window, p.ns_view]
  | .Orbital p => [2, p.window]
  | .Xlib p => [3, p.window, p.display]
  | .Xcb p => [4, p.window, p.connection]
  | .Wayland p => [5, p.surface, p.display]
  | .Win32 p => [6, p.hwnd, p.hinstance]
  | .WinRT p => [7, p.core_window]
  | .Web p => [8, p.id]
  | .AndroidNDK p => [9, p.a_native_window]

/-- C1: unchecked-constructing a TrustedWindowHandle from any RawWindowHandle
value v and then invoking its raw_window_handle operation returns v
unchanged. -/
theorem trusted_new_roundtrip (v : RawWindowHandle) :
    TrustedWindowHandle.raw_window_handle (TrustedWindowHandle.new v) = v :=
  rfl

/-- C2: the extraction constructor wraps exactly the value produced by the
source's capability operation — in particular a stub fixed at V yields a
wrapper reading back V — and, in the instrumented embedding of its body, the
producer operation is applied exactly once (the resulting state is the state
after a single call). -/
theorem trusted_extraction_spec
    (H : Type) (inst : HasRawWindowHandle H) (h : H) (V : RawWindowHandle)
    (hfix : HasRawWindowHandle.raw_window_handle h = V) :
    TrustedWindowHandle.raw_window_handle
        (@TrustedWindowHandle.from_has_raw_window_handle H inst h) = V
      ∧ ∀ (σ : Type) (f : σ → RawWindowHandle × σ) (s : σ),
          TrustedWindowHandle.from_has_raw_window_handle_st f s
            = (TrustedWindowHandle.new (f s).1, (f s).2) := by
  refine ⟨?_, fun σ f s => rfl⟩
  simpa [TrustedWindowHandle.from_has_raw_window_handle,
    TrustedWindowHandle.raw_window_handle] using hfix

/-- Witness for C2 at a concrete stub whose operation always returns the Web
handle with id 7. -/
theorem trusted_extraction_spec_witness :
    TrustedWindowHandle.raw_window_handle
        (TrustedWindowHandle.from_has_raw_window_handle
          (FixedHandleSource.mk (RawWindowHandle.Web ⟨7⟩)))
      = RawWindowHandle.Web ⟨7⟩ :=
  (trusted_extraction_spec FixedHandleSource inferInstance
    (FixedHandleSource.mk (RawWindowHandle.Web ⟨7⟩))
    (RawWindowHandle.Web ⟨7⟩) rfl).1

/-- C3: for every variant of the handle union, wrapping a payload and
pattern-matching it back out on the same variant yields the original
payload. -/
theorem union_roundtrip :
    (∀ p, RawWindowHandle.asUIKit (RawWindowHandle.UIKit p) = some p)
      ∧ (∀ p, RawWindowHandle.asAppKit (RawWindowHandle.AppKit p) = some p)
      ∧ (∀ p, RawWindowHandle.asOrbital (RawWindowHandle.Orbital p) = some p)
      ∧ (∀ p, RawWindowHandle.asXlib (RawWindowHandle.Xlib p) = some p)
      ∧ (∀ p, RawWindowHandle.asXcb (RawWindowHandle.Xcb p) = some p)
      ∧ (∀ p, RawWindowHandle.asWayland (RawWindowHandle.Wayland p) = some p)
      ∧ (∀ p, RawWindowHandle.asWin32 (RawWindowHandle.Win32 p) = some p)
      ∧ (∀ p, RawWindowHandle.asWinRT (RawWindowHandle.WinRT p) = some p)
      ∧ (∀ p, RawWindowHandle.asWeb (RawWindowHandle.Web p) = some p)
      ∧ (∀ p, RawWindowHandle.asAndroidNDK (RawWindowHandle.AndroidNDK p) = some p) :=
  ⟨fun _ => rfl, fun _ => rfl, fun _ => rfl, fun _ => rfl, fun _ => rfl,
   fun _ => rfl, fun _ => rfl, fun _ => rfl, fun _ => rfl, fun _ => rfl⟩

/-- C4: the capability operation is total — for every implementing type and
every receiver it returns exactly one RawWindowHandle, with no error value or
failure branch in its signature. -/
theorem raw_window_handle_total
    (H : Type) (inst : HasRawWindowHandle H) (h : H) :
    ∃! r : RawWindowHandle, @HasRawWindowHandle.raw_window_handle H inst h = r :=
  ⟨@HasRawWindowHandle.raw_window_handle H inst h, rfl, fun _ hr => hr.symm⟩

/-- C5: the trusted wrapper's read-back is deterministic: any two results of
repeated invocations of raw_window_handle on the same wrapper value are
equal. -/
theorem repeated_calls_consistent
    (w : TrustedWindowHandle) (n : Nat) (x y : RawWindowHandle)
    (hx : x ∈ repeatedCalls w n) (hy : y ∈ repeatedCalls w n) : x = y := by
  obtain ⟨a, _, hax⟩ := List.mem_map.1 hx
  obtain ⟨b, _, hby⟩ := List.mem_map.1 hy
  rw [← hax, ← hby]

/-- Witness for C5: two of the results of two calls on a concrete wrapper
are equal. -/
theorem repeated_calls_consistent_witness :
    RawWindowHandle.Web ⟨1⟩ = RawWindowHandle.Web ⟨1⟩ :=
  repeated_calls_consistent
    (TrustedWindowHandle.new (RawWindowHandle.Web ⟨1⟩)) 2
    (RawWindowHandle.Web ⟨1⟩) (RawWindowHandle.Web ⟨1⟩)
    (by decide) (by decide)

/-- C6 counterexample: the claim that every Trusted Wrapper value can be
copied/cloned is false — the source places no Clone or Copy derive on
TrustedWindowHandle (src/lib.rs lines 139-141). -/
theorem trusted_wrapper_not_duplicable :
    derivesClone CrateType.trustedWindowHandle = false
      ∧ derivesCopy CrateType.trustedWindowHandle = false := by
  decide

/-- C6 amended: every handle union and payload type derives Clone and Copy
and the derived clone returns a value equal to the original; the trusted
wrapper type, however, derives neither Clone nor Copy. -/
theorem union_payload_clone_identity :
    (∀ t : CrateType, t ≠ CrateType.trustedWindowHandle →
        derivesClone t = true ∧ derivesCopy t = true)
      ∧ (∀ r : RawWindowHandle, RawWindowHandle.clone r = r)
      ∧ (∀ p : UIKitHandle, UIKitHandle.clone p = p)
      ∧ (∀ p : AppKitHandle, AppKitHandle.clone p = p)
      ∧ (∀ p : OrbitalHandle, OrbitalHandle.clone p = p)
      ∧ (∀ p : XlibHandle, XlibHandle.clone p = p)
      ∧ (∀ p : XcbHandle, XcbHandle.clone p = p)
      ∧ (∀ p : WaylandHandle, WaylandHandle.clone p = p)
      ∧ (∀ p : Win32Handle, Win32Handle.clone p = p)
      ∧ (∀ p : WinRTHandle, WinRTHandle.clone p = p)
      ∧ (∀ p : WebHandle, WebHandle.clone p = p)
      ∧ (∀ p : AndroidNDKHandle, AndroidNDKHandle.clone p = p)
      ∧ derivesClone CrateType.trustedWindowHandle = false
      ∧ derivesCopy CrateType.trustedWindowHandle = false := by
  refine ⟨fun t ht => ?_, fun r => ?_, fun _ => rfl, fun _ => rfl, fun _ => rfl,
    fun _ => rfl, fun _ => rfl, fun _ => rfl, fun _ => rfl, fun _ => rfl,
    fun _ => rfl, fun _ => rfl, rfl, rfl⟩
  · cases t <;> simp_all [derivesClone, derivesCopy]
  · cases r <;> rfl

/-- Witness for the amended C6 at the handle union type. -/
theorem union_payload_clone_identity_witness :
    derivesClone CrateType.rawWindowHandle = true
      ∧ derivesCopy CrateType.rawWindowHandle = true :=
  union_payload_clone_identity.1 CrateType.rawWindowHandle (by decide)

/-- C7: two union values carrying different variant tags are never equal,
even when their numeric fields look equal, and pattern-matching a Web value
on the Win32 branch (or a Win32 value on the Web branch) does not match. -/
theorem cross_variant_distinct
    (r s : RawWindowHandle)
    (h : RawWindowHandle.variantIndex r ≠ RawWindowHandle.variantIndex s)
    (w : WebHandle) (p : Win32Handle) :
    r ≠ s
      ∧ RawWindowHandle.asWin32 (RawWindowHandle.Web w) = none
      ∧ RawWindowHandle.asWeb (RawWindowHandle.Win32 p) = none :=
  ⟨fun he => h (congrArg RawWindowHandle.variantIndex he), rfl, rfl⟩

/-- Witness for C7 at a Web value and a Win32 value whose numeric fields all
equal 7. -/
theorem cross_variant_distinct_witness :
    RawWindowHandle.Web ⟨7⟩ ≠ RawWindowHandle.Win32 ⟨7, 7⟩
      ∧ RawWindowHandle.asWin32 (RawWindowHandle.Web ⟨7⟩) = none
      ∧ RawWindowHandle.asWeb (RawWindowHandle.Win32 ⟨7, 7⟩) = none :=
  cross_variant_distinct (RawWindowHandle.Web ⟨7⟩)
    (RawWindowHandle.Win32 ⟨7, 7⟩) (by decide) ⟨7⟩ ⟨7, 7⟩

/-- C8: the consumer dispatch covering all currently-defined tags classifies
every constructed variant into its correct payload branch, and routes every
synthetic future/unknown tag to the fallback arm. -/
theorem consumer_dispatch_exhaustive :
    (∀ p, consumerDispatch (ConsumerView.known (RawWindowHandle.UIKit p)) = Dispatch.uikit p)
      ∧ (∀ p, consumerDispatch (ConsumerView.known (RawWindowHandle.AppKit p)) = Dispatch.appkit p)
      ∧ (∀ p, consumerDispatch (ConsumerView.known (RawWindowHandle.Orbital p)) = Dispatch.orbital p)
      ∧ (∀ p, consumerDispatch (ConsumerView.known (RawWindowHandle.Xlib p)) = Dispatch.xlib p)
      ∧ (∀ p, consumerDispatch (ConsumerView.known (RawWindowHandle.Xcb p)) = Dispatch.xcb p)
      ∧ (∀ p, consumerDispatch (ConsumerView.known (RawWindowHandle.Wayland p)) = Dispatch.wayland p)
      ∧ (∀ p, consumerDispatch (ConsumerView.known (RawWindowHandle.Win32 p)) = Dispatch.win32 p)
      ∧ (∀ p, consumerDispatch (ConsumerView.known (RawWindowHandle.WinRT p)) = Dispatch.winrt p)
      ∧ (∀ p, consumerDispatch (ConsumerView.known (RawWindowHandle.Web p)) = Dispatch.web p)
      ∧ (∀ p, consumerDispatch (ConsumerView.known (RawWindowHandle.AndroidNDK p)) = Dispatch.androidNdk p)
      ∧ (∀ t, consumerDispatch (ConsumerView.future t) = Dispatch.fallbackArm) :=
  ⟨fun _ => rfl, fun _ => rfl, fun _ => rfl, fun _ => rfl, fun _ => rfl,
   fun _ => rfl, fun _ => rfl, fun _ => rfl, fun _ => rfl, fun _ => rfl,
   fun _ => rfl⟩

/-- C9: for every platform payload type, the empty constructor yields a value
in which every field equals the documented sentinel 0. -/
theorem empty_all_sentinel :
    UIKitHandle.empty.ui_window = 0 ∧ UIKitHandle.empty.ui_view = 0
      ∧ UIKitHandle.empty.ui_view_controller = 0
      ∧ AppKitHandle.empty.ns_window = 0 ∧ AppKitHandle.empty.ns_view = 0
      ∧ OrbitalHandle.empty.window = 0
      ∧ XlibHandle.empty.window = 0 ∧ XlibHandle.empty.display = 0
      ∧ XcbHandle.empty.window = 0 ∧ XcbHandle.empty.connection = 0
      ∧ WaylandHandle.empty.surface = 0 ∧ WaylandHandle.empty.display = 0
      ∧ Win32Handle.empty.hwnd = 0 ∧ Win32Handle.empty.hinstance = 0
      ∧ WinRTHandle.empty.core_window = 0
      ∧ WebHandle.empty.id = 0
      ∧ AndroidNDKHandle.empty.a_native_window = 0 := by
  decide

/-- Field-wise boolean equality on the UIKit payload agrees with equality. -/
theorem uikit_beq_fields_iff (p q : UIKitHandle) :
    p.beqFields q = true ↔ p = q := by
  cases p; cases q; simp [UIKitHandle.beqFields, and_assoc]

/-- Field-wise boolean equality on the AppKit payload agrees with equality. -/
theorem appkit_beq_fields_iff (p q : AppKitHandle) :
    p.beqFields q = true ↔ p = q := by
  cases p; cases q; simp [AppKitHandle.beqFields]

/-- Field-wise boolean equality on the Orbital payload agrees with equality. -/
theorem orbital_beq_fields_iff (p q : OrbitalHandle) :
    p.beqFields q = true ↔ p = q := by
  cases p; cases q; simp [OrbitalHandle.beqFields]

/-- Field-wise boolean equality on the Xlib payload agrees with equality. -/
theorem xlib_beq_fields_iff (p q : XlibHandle) :
    p.beqFields q = true ↔ p = q := by
  cases p; cases q; simp [XlibHandle.beqFields]

/-- Field-wise boolean equality on the Xcb payload agrees with equality. -/
theorem xcb_beq_fields_iff (p q : XcbHandle) :
    p.beqFields q = true ↔ p = q := by
  cases p; cases q; simp [XcbHandle.beqFields]

/-- Field-wise boolean equality on the Wayland payload agrees with equality. -/
theorem wayland_beq_fields_iff (p q : WaylandHandle) :
    p.beqFields q = true ↔ p = q := by
  cases p; cases q; simp [WaylandHandle.beqFields]

/-- Field-wise boolean equality on the Win32 payload agrees with equality. -/
theorem win32_beq_fields_iff (p q : Win32Handle) :
    p.beqFields q = true ↔ p = q := by
  cases p; cases q; simp [Win32Handle.beqFields]

/-- Field-wise boolean equality on the WinRT payload agrees with equality. -/
theorem winrt_beq_fields_iff (p q : WinRTHandle) :
    p.beqFields q = true ↔ p = q := by
  cases p; cases q; simp [WinRTHandle.beqFields]

/-- Field-wise boolean equality on the Web payload agrees with equality. -/
theorem web_beq_fields_iff (p q : WebHandle) :
    p.beqFields q = true ↔ p = q := by
  cases p; cases q; simp [WebHandle.beqFields]

/-- Field-wise boolean equality on the Android NDK payload agrees with
equality. -/
theorem android_ndk_beq_fields_iff (p q : AndroidNDKHandle) :
    p.beqFields q = true ↔ p = q := by
  cases p; cases q; simp [AndroidNDKHandle.beqFields]

/-- C10: the derived equality on the handle union is structural — two values
compare equal exactly when they carry the same variant tag with field-wise
equal payloads — and any two equal values feed identical streams to the
hasher, so the derived PartialEq/Eq/Hash are mutually consistent. -/
theorem derived_eq_hash_consistent (r s : RawWindowHandle) :
    (RawWindowHandle.structEq r s = true ↔ r = s)
      ∧ (RawWindowHandle.structEq r s = true →
          RawWindowHandle.hashStream r = RawWindowHandle.hashStream s) := by
  have hiff : RawWindowHandle.structEq r s = true ↔ r = s := by
    cases r <;> cases s <;>
      simp [RawWindowHandle.structEq, uikit_beq_fields_iff,
        appkit_beq_fields_iff, orbital_beq_fields_iff,
        xlib_beq_fields_iff, xcb_beq_fields_iff,
        wayland_beq_fields_iff, win32_beq_fields_iff,
        winrt_beq_fields_iff, web_beq_fields_iff,
        android_ndk_beq_fields_iff]
  exact ⟨hiff, fun hb => by rw [hiff.1 hb]⟩

/-- Witness for C10 at two equal Web values. -/
theorem derived_eq_hash_consistent_witness :
    RawWindowHandle.hashStream (RawWindowHandle.Web ⟨3⟩)
      = RawWindowHandle.hashStream (RawWindowHandle.Web ⟨3⟩) :=
  (derived_eq_hash_consistent (RawWindowHandle.Web ⟨3⟩)
    (RawWindowHandle.Web ⟨3⟩)).2 (by decide)
